import Mathlib

/-! Formal model of `case-short.py`, a build123d script that generates a
two-part enclosure (base + shell) for a small electronics board and exports
STL/GLB meshes.  Solids are modelled as decidable point-membership predicates
over rational 3-space; the script's sequence of CSG operations is modelled as
an ordered list of additive/subtractive operations evaluated left to right,
exactly in the order the script issues them.  The script's observable I/O
(console lines, export calls, the optional viewer call) is modelled as an
event trace parameterised by whether the optional viewer import succeeds. -/

namespace DecoyCase

/-- A point of 3-space with rational coordinates. -/
structure P3 where
  x : ℚ
  y : ℚ
  z : ℚ

/-- Axis alignment of a primitive relative to its location, as in build123d's
`Align` (MIN / CENTER / MAX). -/
inductive Align where
  | min
  | center
  | max
deriving DecidableEq

/-- Lower end of an interval of length `len` aligned at `c`. -/
def Align.lo (a : Align) (c len : ℚ) : ℚ :=
  match a with
  | .min => c
  | .center => c - len / 2
  | .max => c - len

/-- Upper end of an interval of length `len` aligned at `c`. -/
def Align.hi (a : Align) (c len : ℚ) : ℚ :=
  match a with
  | .min => c + len
  | .center => c + len / 2
  | .max => c

/-- A geometric primitive: an axis-aligned box (`Box` located at
`(cx, cy, cz)` with side lengths `lx, ly, lz` and per-axis alignment) or a
z-axis cylinder (`Cylinder` with radius `r`, height `h`, z-alignment `az`;
build123d cylinders are always centred in x/y on their location). -/
inductive Shape where
  | box (cx cy cz lx ly lz : ℚ) (ax ay az : Align)
  | cyl (cx cy cz r h : ℚ) (az : Align)
deriving DecidableEq

/-- Closed point membership of a primitive. -/
def Shape.mem : Shape → P3 → Bool
  | .box cx cy cz lx ly lz ax ay az, p =>
    decide (ax.lo cx lx ≤ p.x) && decide (p.x ≤ ax.hi cx lx) &&
    decide (ay.lo cy ly ≤ p.y) && decide (p.y ≤ ay.hi cy ly) &&
    decide (az.lo cz lz ≤ p.z) && decide (p.z ≤ az.hi cz lz)
  | .cyl cx cy cz r h az, p =>
    decide ((p.x - cx) ^ 2 + (p.y - cy) ^ 2 ≤ r ^ 2) &&
    decide (az.lo cz h ≤ p.z) && decide (p.z ≤ az.hi cz h)

/-- One CSG step of a `BuildPart` context: either add a positive primitive
with a list of primitives already subtracted from it (a PRIVATE sub-build
`outer - inner - tools` is added as `add outer [inner, tools…]`), or subtract
a primitive (`mode=Mode.SUBTRACT`) from everything built so far. -/
inductive Op where
  | add (s : Shape) (negs : List Shape)
  | sub (s : Shape)
deriving DecidableEq

/-- Effect of one step on the membership accumulator at point `p`. -/
def Op.apply (acc : Bool) (o : Op) (p : P3) : Bool :=
  match o with
  | .add s negs => acc || (s.mem p && negs.all fun n => !(n.mem p))
  | .sub s => acc && !(s.mem p)

/-- Run a list of CSG steps starting from accumulator `acc`. -/
def runFrom (acc : Bool) : List Op → P3 → Bool
  | [], _ => acc
  | o :: rest, p => runFrom (o.apply acc p) rest p

/-- Point membership of the solid built by a list of CSG steps. -/
def runOps (ops : List Op) (p : P3) : Bool := runFrom false ops p

/-! ## Parameters (script section 1), in source order. -/

def pcb_len : ℚ := 28.5
def pcb_wid : ℚ := 11.0
def pcb_thick : ℚ := 1.6

def usb_len_metal : ℚ := 7.0
def usb_w : ℚ := 9.0
def usb_h : ℚ := 3.6
def term_block_len : ℚ := 8.5
def term_block_h : ℚ := 10.5

def wall_thick : ℚ := 1.6
def floor_thick : ℚ := 4.0
def fit_tol : ℚ := 0.20
def standoff_h : ℚ := 2.5
def recess_h : ℚ := 3.8
def usb_anvil_h : ℚ := 2.0
def usb_cut_w : ℚ := 12.0

def internal_h : ℚ := 16.0

def slot_w : ℚ := 7.0
def slot_h : ℚ := 1.3
def wire_h_from_pcb : ℚ := 5.5

def wire_center_h : ℚ := standoff_h + wire_h_from_pcb
def clamp_anvil_h : ℚ := wire_center_h - slot_h / 2
def clamp_arch_top : ℚ := wire_center_h + slot_h / 2

def screw_post_dia : ℚ := 6.0
def screw_pilot_dia : ℚ := 2.5
def screw_clear_dia : ℚ := 3.2
def head_dia : ℚ := 6.0
def cb_depth : ℚ := 2.0

def pcb_xy_tol : ℚ := 0.15

def cavity_l : ℚ := pcb_len + 2.0
def cavity_w : ℚ := pcb_wid + 2 * screw_post_dia + pcb_xy_tol

def outer_l : ℚ := cavity_l + 2 * wall_thick
def outer_w : ℚ := cavity_w + 2 * wall_thick

def post_offset_x : ℚ := cavity_l / 2 - screw_post_dia / 2
def post_offset_y : ℚ := cavity_w / 2 - screw_post_dia / 2
def post_r : ℚ := screw_post_dia / 2

/-! ## Ghost parts (script section 2): reference solids for visualisation. -/

def pcb_z_center : ℚ := standoff_h + pcb_thick / 2

/-- Ghost PCB: `Box(pcb_len, pcb_wid, pcb_thick)` centred, moved to
`(0, 0, pcb_z_center)`. -/
def pcbShape : Shape :=
  .box 0 0 pcb_z_center pcb_len pcb_wid pcb_thick .center .center .center

def usb_x : ℚ := -(pcb_len / 2) + usb_len_metal / 2
def usb_z : ℚ := standoff_h + pcb_thick + usb_h / 2 - 0.5

/-- Ghost USB connector. -/
def usbShape : Shape :=
  .box usb_x 0 usb_z usb_len_metal usb_w usb_h .center .center .center

def term_x : ℚ := pcb_len / 2 - term_block_len / 2
def term_z : ℚ := standoff_h + pcb_thick + term_block_h / 2

/-- Ghost terminal block: `Box(term_block_len, pcb_wid - 1.0, term_block_h)`. -/
def termShape : Shape :=
  .box term_x 0 term_z term_block_len (pcb_wid - 1.0) term_block_h .center .center .center

/-! ## Base builder (script section 3). -/

def lip_height : ℚ := 2.5
def recess_wall_t : ℚ := 1.2
def soff_size : ℚ := 1.0
def soff_offset_y : ℚ := pcb_wid / 2 - soff_size / 2
def soff_back_x : ℚ := pcb_len / 2 - soff_size / 2
def soff_front_x : ℚ := -(pcb_len / 2) + soff_size / 2 + 1.2
def cut_depth : ℚ := outer_l / 2 - pcb_len / 2

/-- `sx = 1 if x > 0 else -1` from the corner loops. -/
def sgn (q : ℚ) : ℚ := if 0 < q then 1 else -1

/-- The four corner centres produced by the nested loops
`for x in [-post_offset_x, post_offset_x]: for y in [-post_offset_y, post_offset_y]`
(lip corner cuts, recess post tool, shell posts) in iteration order. -/
def cornerXY : List (ℚ × ℚ) :=
  [(-post_offset_x, -post_offset_y), (-post_offset_x, post_offset_y),
   (post_offset_x, -post_offset_y), (post_offset_x, post_offset_y)]

/-- The screw-hole centres from the comprehension
`[(x, y) for x in [-post_offset_x, post_offset_x] for y in [-post_offset_y, post_offset_y]]`. -/
def screwCenters : List (ℚ × ℚ) :=
  [(-post_offset_x, -post_offset_y), (-post_offset_x, post_offset_y),
   (post_offset_x, -post_offset_y), (post_offset_x, post_offset_y)]

/-- Base plate: `Box(outer_l, outer_w, floor_thick)` min-aligned in z. -/
def floorShape : Shape :=
  .box 0 0 0 outer_l outer_w floor_thick .center .center .min

/-- Outer box of the PRIVATE alignment-lip build, located at `z = floor_thick`. -/
def lipOuterShape : Shape :=
  .box 0 0 floor_thick (cavity_l - fit_tol) (cavity_w - fit_tol) lip_height .center .center .min

/-- Inner (subtracted) box of the alignment-lip build. -/
def lipInnerShape : Shape :=
  .box 0 0 floor_thick (cavity_l - fit_tol - 2.4) (cavity_w - fit_tol - 2.4) lip_height .center .center .min

/-- Corner cuts on the lip: per corner, the main cylinder cut then the square
corner-reinforcement cut offset by `(sx*cut_size/2, sy*cut_size/2)`. -/
def lipCornerCuts : List Op :=
  cornerXY.flatMap fun c =>
    [Op.sub (.cyl c.1 c.2 floor_thick (post_r + fit_tol) lip_height .min),
     Op.sub (.box (c.1 + sgn c.1 * ((post_r + fit_tol) / 2))
                  (c.2 + sgn c.2 * ((post_r + fit_tol) / 2))
                  floor_thick (post_r + fit_tol) (post_r + fit_tol) lip_height
                  .center .center .min)]

/-- Slot cut for the clamp tower at the back of the rim. -/
def slotShape : Shape :=
  .box (cavity_l / 2) 0 floor_thick (wall_thick * 4) slot_w (lip_height * 2) .center .center .min

/-- Outer box of the PCB retention recess (PRIVATE build). -/
def recessOuterShape : Shape :=
  .box 0 0 floor_thick (pcb_len + pcb_xy_tol + 2 * recess_wall_t)
      (pcb_wid + pcb_xy_tol + 2 * recess_wall_t) recess_h .center .center .min

/-- Inner (subtracted) box of the PCB retention recess. -/
def recessInnerShape : Shape :=
  .box 0 0 floor_thick (pcb_len + pcb_xy_tol) (pcb_wid + pcb_xy_tol) recess_h .center .center .min

/-- The PRIVATE `posts_tool` cylinders subtracted from the recess. -/
def recessPostNegs : List Shape :=
  cornerXY.map fun c => .cyl c.1 c.2 floor_thick (post_r + fit_tol) recess_h .min

/-- The four square standoff pillars (back pair then front pair, each pair in
`[-soff_offset_y, soff_offset_y]` order). -/
def standoffShapes : List Shape :=
  [.box soff_back_x (-soff_offset_y) floor_thick soff_size soff_size standoff_h .center .center .min,
   .box soff_back_x soff_offset_y floor_thick soff_size soff_size standoff_h .center .center .min,
   .box soff_front_x (-soff_offset_y) floor_thick soff_size soff_size standoff_h .center .center .min,
   .box soff_front_x soff_offset_y floor_thick soff_size soff_size standoff_h .center .center .min]

def standoffOps : List Op := standoffShapes.map fun s => Op.add s []

/-- Screw clearance hole at centre `c`: full-thickness cylinder of height
`floor_thick*3`, z-centred at 0. -/
def clearShape (c : ℚ × ℚ) : Shape :=
  .cyl c.1 c.2 0 (screw_clear_dia / 2) (floor_thick * 3) .center

/-- Counterbore at centre `c`, cut from the bottom face. -/
def cbShape (c : ℚ × ℚ) : Shape :=
  .cyl c.1 c.2 0 (head_dia / 2) cb_depth .min

def screwClearOps : List Op := screwCenters.map fun c => Op.sub (clearShape c)

def screwCbOps : List Op := screwCenters.map fun c => Op.sub (cbShape c)

/-- Wire-clamp anvil bar at the back wall. -/
def clampAnvilShape : Shape :=
  .box (outer_l / 2 - wall_thick / 2) 0 floor_thick wall_thick slot_w clamp_anvil_h .center .center .min

/-- Flush USB anvil bar at the front wall. -/
def usbAnvilShape : Shape :=
  .box (-(outer_l / 2) + wall_thick / 2) 0 floor_thick wall_thick (usb_cut_w - fit_tol) usb_anvil_h .center .center .min

/-- Final USB-opening cut through the front wall, min-aligned in x from
`-outer_l/2`, starting at `z = floor_thick + usb_anvil_h`. -/
def usbCutBaseShape : Shape :=
  .box (-(outer_l / 2)) 0 (floor_thick + usb_anvil_h) cut_depth usb_cut_w (lip_height * 3) .min .center .min

/-- The base builder's CSG steps, in script order. -/
def baseOps : List Op :=
  [Op.add floorShape [],
   Op.add lipOuterShape [lipInnerShape]]
  ++ lipCornerCuts
  ++ [Op.sub slotShape,
      Op.add recessOuterShape (recessInnerShape :: recessPostNegs)]
  ++ standoffOps
  ++ screwClearOps
  ++ screwCbOps
  ++ [Op.add clampAnvilShape [],
      Op.add usbAnvilShape [],
      Op.sub usbCutBaseShape]

/-! ## Shell builder (script section 4), parameterised over the five height
parameters that feed the hold-down clearance computations
(`internal_h`, `standoff_h`, `pcb_thick`, `usb_h`, `term_block_h`), exactly
where those globals flow into the shell builder in the source. -/

def shell_ext_h : ℚ := internal_h + wall_thick

/-- Shell main block, of height `ih + wall_thick`. -/
def shellBlockShape (ih : ℚ) : Shape :=
  .box 0 0 0 outer_l outer_w (ih + wall_thick) .center .center .min

/-- Hollow cavity cut of the shell. -/
def cavityShape (ih : ℚ) : Shape :=
  .box 0 0 0 cavity_l cavity_w ih .center .center .min

/-- Reinforced screw posts: per corner, the post cylinder, the square corner
fill offset by `(sx*post_r/2, sy*post_r/2)`, then the pilot-hole cut. -/
def postOps (ih : ℚ) : List Op :=
  cornerXY.flatMap fun c =>
    [Op.add (.cyl c.1 c.2 0 post_r ih .min) [],
     Op.add (.box (c.1 + sgn c.1 * (post_r / 2)) (c.2 + sgn c.2 * (post_r / 2))
                  0 post_r post_r ih .center .center .min) [],
     Op.sub (.cyl c.1 c.2 0 (screw_pilot_dia / 2) ih .min)]

/-- Front (USB) hold-down block of height `u`, hanging from `z = ih`. -/
def usbHoldShape (ih u : ℚ) : Shape :=
  .box (-(pcb_len / 2) + usb_len_metal / 2) 0 ih usb_len_metal usb_w u .center .center .max

/-- Back (terminal) hold-down block of height `t`, hanging from `z = ih`;
its footprint is `term_block_len × term_block_len`. -/
def termHoldShape (ih t : ℚ) : Shape :=
  .box (pcb_len / 2 - term_block_len / 2) 0 ih term_block_len term_block_len t .center .center .max

/-- Shell USB cutout through the front wall, of height
`usb_cut_top = usb_z + (usb_h + 3.0)/2` where `usb_z = sh + pt + uh/2 - 0.5`. -/
def usbCutShellShape (sh pt uh : ℚ) : Shape :=
  .box (-(outer_l / 2)) 0 0 (wall_thick * 4) usb_cut_w
      ((sh + pt + uh / 2 - 0.5) + (uh + 3.0) / 2) .center .center .min

/-- Wire-clamp arch cut through the back wall, of height
`clamp_arch_top = (sh + wire_h_from_pcb) + slot_h/2`. -/
def clampArchShape (sh : ℚ) : Shape :=
  .box (outer_l / 2) 0 0 (wall_thick * 4) slot_w ((sh + wire_h_from_pcb) + slot_h / 2) .center .center .min

/-- The shell builder's CSG steps, in script order.  The two hold-down blocks
are emitted iff their computed clearance heights
`ih - (sh + pt + uh)` / `ih - (sh + pt + th)` are strictly positive
(the script's `if usb_hold_h > 0:` / `if term_hold_h > 0:`). -/
def shellOpsP (ih sh pt uh th : ℚ) : List Op :=
  [Op.add (shellBlockShape ih) [],
   Op.sub (cavityShape ih)]
  ++ postOps ih
  ++ (if 0 < ih - (sh + pt + uh) then [Op.add (usbHoldShape ih (ih - (sh + pt + uh))) []] else [])
  ++ (if 0 < ih - (sh + pt + th) then [Op.add (termHoldShape ih (ih - (sh + pt + th))) []] else [])
  ++ [Op.sub (usbCutShellShape sh pt uh),
      Op.sub (clampArchShape sh)]

/-- The shell builder at the script's parameter values. -/
def shellOps : List Op :=
  shellOpsP internal_h standoff_h pcb_thick usb_h term_block_h

/-! ## Solids and the observable I/O trace (script sections 5 and 6). -/

def baseSolid : P3 → Bool := runOps baseOps

def shellSolid : P3 → Bool := runOps shellOps

def pcbSolid : P3 → Bool := pcbShape.mem

def usbSolid : P3 → Bool := usbShape.mem

def termSolid : P3 → Bool := termShape.mem

/-- `solid.moved(Location((0, 0, dz)))`: a moved copy, leaving the original
untouched. -/
def movedZ (s : P3 → Bool) (dz : ℚ) : P3 → Bool := fun p => s ⟨p.x, p.y, p.z - dz⟩

/-- Observable events of one run: console lines, mesh exports (carrying the
exported solid), and the viewer call (carrying the displayed solids). -/
inductive Event where
  | printLine (s : String)
  | exportSTL (file : String) (solid : P3 → Bool)
  | exportGLTF (file : String) (solid : P3 → Bool)
  | showEv (solids : List (P3 → Bool))

/-- The script's observable trace, as a function of whether `ocp_vscode` is
importable.  On ImportError the script prints a notice and sets
`VISUALIZE = False`; the viewer is called iff `VISUALIZE`; the four exports
and the two progress lines are unconditional. -/
def mainTrace (ocpAvailable : Bool) : List Event :=
  (if ocpAvailable then [] else [Event.printLine "ocp_vscode not found, skipping visualization."])
  ++ (if ocpAvailable then
        [Event.showEv [baseSolid, movedZ pcbSolid floor_thick, movedZ usbSolid floor_thick,
                       movedZ termSolid floor_thick, movedZ shellSolid (floor_thick + 30)]]
      else [])
  ++ [Event.printLine "Exporting files...",
      Event.exportSTL "decoy_base.stl" baseSolid,
      Event.exportSTL "decoy_shell.stl" shellSolid,
      Event.exportGLTF "decoy_base.glb" baseSolid,
      Event.exportGLTF "decoy_shell.glb" shellSolid,
      Event.printLine "Done."]

/-- Console lines of a trace. -/
def printedLines (t : List Event) : List String :=
  t.filterMap fun e =>
    match e with
    | .printLine s => some s
    | _ => none

/-- Exported file names of a trace, in order. -/
def exportedFiles (t : List Event) : List String :=
  t.filterMap fun e =>
    match e with
    | .exportSTL file _ => some file
    | .exportGLTF file _ => some file
    | _ => none

/-- Exported solids of a trace, in order. -/
def exportedSolids (t : List Event) : List (P3 → Bool) :=
  t.filterMap fun e =>
    match e with
    | .exportSTL _ s => some s
    | .exportGLTF _ s => some s
    | _ => none

/-- Whether the trace contains a viewer call. -/
def hasShowEvent (t : List Event) : Bool :=
  t.any fun e =>
    match e with
    | .showEv _ => true
    | _ => false

/-- Helper predicate: every additive step in `ops` has its positive shape
absent at `p` (so running the steps from `false` stays `false`). -/
def AddsFalse (ops : List Op) (p : P3) : Prop :=
  ∀ s negs, Op.add s negs ∈ ops → s.mem p = false

/-- Helper predicate: every subtractive step in `ops` misses `p` (so running
the steps from `true` stays `true`). -/
def SubsFalse (ops : List Op) (p : P3) : Prop :=
  ∀ s, Op.sub s ∈ ops → s.mem p = false

/-- `true` on subtractive steps. -/
def Op.isSub : Op → Bool
  | .sub _ => true
  | .add _ _ => false

/-- x-side length of a primitive (diameter for a cylinder). -/
def lenX : Shape → ℚ
  | .box _ _ _ lx _ _ _ _ _ => lx
  | .cyl _ _ _ r _ _ => 2 * r

/-- y-side length of a primitive (diameter for a cylinder). -/
def lenY : Shape → ℚ
  | .box _ _ _ _ ly _ _ _ _ => ly
  | .cyl _ _ _ r _ _ => 2 * r

/-- The positive shapes of the additive steps of an op list. -/
def addShapes (ops : List Op) : List Shape :=
  ops.filterMap fun o =>
    match o with
    | .add s _ => some s
    | .sub _ => none

/-- The base builder's steps up to and including the rim slot cut (the
material present when the slot is cut). -/
def baseOpsThroughSlot : List Op :=
  [Op.add floorShape [],
   Op.add lipOuterShape [lipInnerShape]]
  ++ lipCornerCuts
  ++ [Op.sub slotShape]

/-- The base builder's steps after the rim slot cut. -/
def baseOpsAfterSlot : List Op :=
  [Op.add recessOuterShape (recessInnerShape :: recessPostNegs)]
  ++ standoffOps
  ++ screwClearOps
  ++ screwCbOps
  ++ [Op.add clampAnvilShape [],
      Op.add usbAnvilShape [],
      Op.sub usbCutBaseShape]

end DecoyCase

namespace DecoyCase

/-! ## Generic lemmas about the CSG evaluator. -/

/-- Box membership, in propositional form. -/
theorem box_mem_iff (cx cy cz lx ly lz : ℚ) (ax ay az : Align) (p : P3) :
    (Shape.box cx cy cz lx ly lz ax ay az).mem p = true ↔
      ax.lo cx lx ≤ p.x ∧ p.x ≤ ax.hi cx lx ∧
      ay.lo cy ly ≤ p.y ∧ p.y ≤ ay.hi cy ly ∧
      az.lo cz lz ≤ p.z ∧ p.z ≤ az.hi cz lz := by
  simp [Shape.mem, and_assoc]

/-- Cylinder membership, in propositional form. -/
theorem cyl_mem_iff (cx cy cz r h : ℚ) (az : Align) (p : P3) :
    (Shape.cyl cx cy cz r h az).mem p = true ↔
      (p.x - cx) ^ 2 + (p.y - cy) ^ 2 ≤ r ^ 2 ∧
      az.lo cz h ≤ p.z ∧ p.z ≤ az.hi cz h := by
  simp [Shape.mem, and_assoc]

/-- A shape misses `p` as soon as membership is contradictory. -/
theorem mem_false_of_not {s : Shape} {p : P3} (h : s.mem p = true → False) :
    s.mem p = false := by
  cases hm : s.mem p
  · rfl
  · exact absurd hm h

theorem runFrom_append (acc : Bool) (l1 l2 : List Op) (p : P3) :
    runFrom acc (l1 ++ l2) p = runFrom (runFrom acc l1 p) l2 p := by
  induction l1 generalizing acc with
  | nil => rfl
  | cons o rest ih => simp [runFrom, ih]

theorem runFrom_false_of_addsFalse {ops : List Op} {p : P3} (h : AddsFalse ops p) :
    runFrom false ops p = false := by
  induction ops with
  | nil => rfl
  | cons o rest ih =>
    have hrest : AddsFalse rest p := fun s negs hm => h s negs (List.mem_cons_of_mem _ hm)
    cases o with
    | add s negs =>
      have hs : s.mem p = false := h s negs (List.mem_cons_self _ _)
      simpa [runFrom, Op.apply, hs] using ih hrest
    | sub s => simpa [runFrom, Op.apply] using ih hrest

theorem runFrom_true_of_subsFalse {ops : List Op} {p : P3} (h : SubsFalse ops p) :
    runFrom true ops p = true := by
  induction ops with
  | nil => rfl
  | cons o rest ih =>
    have hrest : SubsFalse rest p := fun s hm => h s (List.mem_cons_of_mem _ hm)
    cases o with
    | add s negs => simpa [runFrom, Op.apply] using ih hrest
    | sub s =>
      have hs : s.mem p = false := h s (List.mem_cons_self _ _)
      simpa [runFrom, Op.apply, hs] using ih hrest

/-- If the accumulated solid contains `p`, some additive step's positive shape
contains `p` (subtractions never create material). -/
theorem runFrom_true_elim {acc : Bool} {ops : List Op} {p : P3}
    (h : runFrom acc ops p = true) :
    acc = true ∨ ∃ s negs, Op.add s negs ∈ ops ∧ s.mem p = true := by
  induction ops generalizing acc with
  | nil => exact Or.inl h
  | cons o rest ih =>
    rcases ih h with hacc | ⟨s, negs, hm, hs⟩
    · cases o with
      | add s negs =>
        rcases Bool.or_eq_true_iff.mp hacc with h1 | h2
        · exact Or.inl h1
        · exact Or.inr ⟨s, negs, List.mem_cons_self _ _,
            (Bool.and_eq_true_iff.mp h2).1⟩
      | sub s =>
        exact Or.inl (Bool.and_eq_true_iff.mp hacc).1
    · exact Or.inr ⟨s, negs, List.mem_cons_of_mem _ hm, hs⟩

end DecoyCase

namespace DecoyCase

/-! ## Claim theorems. -/

/-- C6: regardless of whether the viewer library is importable, the script
exports exactly the four files `decoy_base.stl`, `decoy_shell.stl`,
`decoy_base.glb`, `decoy_shell.glb` (in that order), and its console output is
exactly the two fixed progress lines, preceded by the single import-failure
notice exactly when the viewer is absent. -/
theorem c6_exports_and_console (b : Bool) :
    exportedFiles (mainTrace b) =
      ["decoy_base.stl", "decoy_shell.stl", "decoy_base.glb", "decoy_shell.glb"] ∧
    printedLines (mainTrace b) =
      (if b then [] else ["ocp_vscode not found, skipping visualization."]) ++
        ["Exporting files...", "Done."] := by
  cases b <;> exact ⟨rfl, rfl⟩

/-- C7: the only caught error is the ImportError around the optional viewer
import: when the viewer is absent the notice is printed and the preview
(`show`) step is skipped, while the exports still run; when it is present
there is no notice and the preview runs.  (The script contains no other
`try/except`; the modelled pipeline is total in everything except this one
boolean import flag.) -/
theorem c7_import_guard (b : Bool) :
    hasShowEvent (mainTrace b) = b ∧
    (Event.printLine "ocp_vscode not found, skipping visualization." ∈ mainTrace b ↔
      b = false) ∧
    exportedFiles (mainTrace b) =
      ["decoy_base.stl", "decoy_shell.stl", "decoy_base.glb", "decoy_shell.glb"] := by
  cases b
  · exact ⟨rfl, by simp [mainTrace], rfl⟩
  · exact ⟨rfl, by simp [mainTrace], rfl⟩

end DecoyCase

namespace DecoyCase

/-- C9: the exported solids are exactly the base and shell solids, identically
whether or not the preview runs; the viewer (when it runs) receives only the
base solid and moved copies of the ghosts and shell; and no ghost solid equals
an exported solid. -/
theorem c9_ghosts_never_exported :
    exportedSolids (mainTrace true) = exportedSolids (mainTrace false) ∧
    (∀ b, exportedSolids (mainTrace b) = [baseSolid, shellSolid, baseSolid, shellSolid]) ∧
    (∀ b L, Event.showEv L ∈ mainTrace b → b = true ∧
      L = [baseSolid, movedZ pcbSolid floor_thick, movedZ usbSolid floor_thick,
           movedZ termSolid floor_thick, movedZ shellSolid (floor_thick + 30)]) ∧
    (∀ g ∈ [pcbSolid, usbSolid, termSolid], g ≠ baseSolid ∧ g ≠ shellSolid) := by
  have hpcb : pcbSolid ⟨0, 0, 81/20⟩ = true := by
    norm_num [pcbSolid, pcbShape, Shape.mem, Align.lo, Align.hi, pcb_z_center,
      pcb_len, pcb_wid, pcb_thick, standoff_h]
  have husb : usbSolid ⟨-(43/4), 0, 27/5⟩ = true := by
    norm_num [usbSolid, usbShape, Shape.mem, Align.lo, Align.hi, usb_x, usb_z,
      pcb_len, usb_len_metal, usb_w, usb_h, standoff_h, pcb_thick]
  have hterm : termSolid ⟨10, 0, 187/20⟩ = true := by
    norm_num [termSolid, termShape, Shape.mem, Align.lo, Align.hi, term_x, term_z,
      pcb_len, term_block_len, term_block_h, pcb_wid, standoff_h, pcb_thick]
  have hbase1 : baseSolid ⟨0, 0, 81/20⟩ = false := by
    norm_num [baseSolid, runOps, runFrom, Op.apply, baseOps, lipCornerCuts, cornerXY, sgn,
      standoffOps, standoffShapes, screwClearOps, screwCbOps, screwCenters, Shape.mem,
      Align.lo, Align.hi, floorShape, lipOuterShape, lipInnerShape, slotShape,
      recessOuterShape, recessInnerShape, recessPostNegs, clearShape, cbShape,
      clampAnvilShape, usbAnvilShape, usbCutBaseShape, pcb_len, pcb_wid, pcb_thick,
      usb_len_metal, usb_w, usb_h, term_block_len, term_block_h, wall_thick, floor_thick,
      fit_tol, standoff_h, recess_h, usb_anvil_h, usb_cut_w, internal_h, slot_w, slot_h,
      wire_h_from_pcb, wire_center_h, clamp_anvil_h, clamp_arch_top, screw_post_dia,
      screw_pilot_dia, screw_clear_dia, head_dia, cb_depth, pcb_xy_tol, cavity_l, cavity_w,
      outer_l, outer_w, post_offset_x, post_offset_y, post_r, lip_height, recess_wall_t,
      soff_size, soff_offset_y, soff_back_x, soff_front_x, cut_depth]
  have hbase2 : baseSolid ⟨-(43/4), 0, 27/5⟩ = false := by
    norm_num [baseSolid, runOps, runFrom, Op.apply, baseOps, lipCornerCuts, cornerXY, sgn,
      standoffOps, standoffShapes, screwClearOps, screwCbOps, screwCenters, Shape.mem,
      Align.lo, Align.hi, floorShape, lipOuterShape, lipInnerShape, slotShape,
      recessOuterShape, recessInnerShape, recessPostNegs, clearShape, cbShape,
      clampAnvilShape, usbAnvilShape, usbCutBaseShape, pcb_len, pcb_wid, pcb_thick,
      usb_len_metal, usb_w, usb_h, term_block_len, term_block_h, wall_thick, floor_thick,
      fit_tol, standoff_h, recess_h, usb_anvil_h, usb_cut_w, internal_h, slot_w, slot_h,
      wire_h_from_pcb, wire_center_h, clamp_anvil_h, clamp_arch_top, screw_post_dia,
      screw_pilot_dia, screw_clear_dia, head_dia, cb_depth, pcb_xy_tol, cavity_l, cavity_w,
      outer_l, outer_w, post_offset_x, post_offset_y, post_r, lip_height, recess_wall_t,
      soff_size, soff_offset_y, soff_back_x, soff_front_x, cut_depth]
  have hbase3 : baseSolid ⟨10, 0, 187/20⟩ = false := by
    norm_num [baseSolid, runOps, runFrom, Op.apply, baseOps, lipCornerCuts, cornerXY, sgn,
      standoffOps, standoffShapes, screwClearOps, screwCbOps, screwCenters, Shape.mem,
      Align.lo, Align.hi, floorShape, lipOuterShape, lipInnerShape, slotShape,
      recessOuterShape, recessInnerShape, recessPostNegs, clearShape, cbShape,
      clampAnvilShape, usbAnvilShape, usbCutBaseShape, pcb_len, pcb_wid, pcb_thick,
      usb_len_metal, usb_w, usb_h, term_block_len, term_block_h, wall_thick, floor_thick,
      fit_tol, standoff_h, recess_h, usb_anvil_h, usb_cut_w, internal_h, slot_w, slot_h,
      wire_h_from_pcb, wire_center_h, clamp_anvil_h, clamp_arch_top, screw_post_dia,
      screw_pilot_dia, screw_clear_dia, head_dia, cb_depth, pcb_xy_tol, cavity_l, cavity_w,
      outer_l, outer_w, post_offset_x, post_offset_y, post_r, lip_height, recess_wall_t,
      soff_size, soff_offset_y, soff_back_x, soff_front_x, cut_depth]
  have hshell1 : shellSolid ⟨0, 0, 81/20⟩ = false := by
    norm_num [shellSolid, runOps, runFrom, Op.apply, shellOps, shellOpsP, postOps, cornerXY,
      sgn, Shape.mem, Align.lo, Align.hi, shellBlockShape, cavityShape, usbHoldShape,
      termHoldShape, usbCutShellShape, clampArchShape, pcb_len, pcb_wid, pcb_thick,
      usb_len_metal, usb_w, usb_h, term_block_len, term_block_h, wall_thick, floor_thick,
      fit_tol, standoff_h, internal_h, slot_w, slot_h, wire_h_from_pcb, usb_cut_w,
      screw_post_dia, screw_pilot_dia, pcb_xy_tol, cavity_l, cavity_w, outer_l, outer_w,
      post_offset_x, post_offset_y, post_r]
  have hshell2 : shellSolid ⟨-(43/4), 0, 27/5⟩ = false := by
    norm_num [shellSolid, runOps, runFrom, Op.apply, shellOps, shellOpsP, postOps, cornerXY,
      sgn, Shape.mem, Align.lo, Align.hi, shellBlockShape, cavityShape, usbHoldShape,
      termHoldShape, usbCutShellShape, clampArchShape, pcb_len, pcb_wid, pcb_thick,
      usb_len_metal, usb_w, usb_h, term_block_len, term_block_h, wall_thick, floor_thick,
      fit_tol, standoff_h, internal_h, slot_w, slot_h, wire_h_from_pcb, usb_cut_w,
      screw_post_dia, screw_pilot_dia, pcb_xy_tol, cavity_l, cavity_w, outer_l, outer_w,
      post_offset_x, post_offset_y, post_r]
  have hshell3 : shellSolid ⟨10, 0, 187/20⟩ = false := by
    norm_num [shellSolid, runOps, runFrom, Op.apply, shellOps, shellOpsP, postOps, cornerXY,
      sgn, Shape.mem, Align.lo, Align.hi, shellBlockShape, cavityShape, usbHoldShape,
      termHoldShape, usbCutShellShape, clampArchShape, pcb_len, pcb_wid, pcb_thick,
      usb_len_metal, usb_w, usb_h, term_block_len, term_block_h, wall_thick, floor_thick,
      fit_tol, standoff_h, internal_h, slot_w, slot_h, wire_h_from_pcb, usb_cut_w,
      screw_post_dia, screw_pilot_dia, pcb_xy_tol, cavity_l, cavity_w, outer_l, outer_w,
      post_offset_x, post_offset_y, post_r]
  refine ⟨rfl, ?_, ?_, ?_⟩
  · intro b; cases b <;> rfl
  · intro b L h
    cases b
    · simp [mainTrace] at h
    · simp [mainTrace] at h
      exact ⟨rfl, h⟩
  · intro g hg
    simp only [List.mem_cons, List.not_mem_nil, or_false] at hg
    rcases hg with rfl | rfl | rfl
    · refine ⟨fun h => ?_, fun h => ?_⟩
      · have h0 := congrFun h ⟨0, 0, 81/20⟩
        rw [hpcb, hbase1] at h0
        exact Bool.noConfusion h0
      · have h0 := congrFun h ⟨0, 0, 81/20⟩
        rw [hpcb, hshell1] at h0
        exact Bool.noConfusion h0
    · refine ⟨fun h => ?_, fun h => ?_⟩
      · have h0 := congrFun h ⟨-(43/4), 0, 27/5⟩
        rw [husb, hbase2] at h0
        exact Bool.noConfusion h0
      · have h0 := congrFun h ⟨-(43/4), 0, 27/5⟩
        rw [husb, hshell2] at h0
        exact Bool.noConfusion h0
    · refine ⟨fun h => ?_, fun h => ?_⟩
      · have h0 := congrFun h ⟨10, 0, 187/20⟩
        rw [hterm, hbase3] at h0
        exact Bool.noConfusion h0
      · have h0 := congrFun h ⟨10, 0, 187/20⟩
        rw [hterm, hshell3] at h0
        exact Bool.noConfusion h0

/-- C9 witness: the hypothesised parts of `c9_ghosts_never_exported`
instantiated at concrete inputs. -/
theorem c9_ghosts_never_exported_witness :
    (true = true ∧
      [baseSolid, movedZ pcbSolid floor_thick, movedZ usbSolid floor_thick,
       movedZ termSolid floor_thick, movedZ shellSolid (floor_thick + 30)] =
      [baseSolid, movedZ pcbSolid floor_thick, movedZ usbSolid floor_thick,
       movedZ termSolid floor_thick, movedZ shellSolid (floor_thick + 30)]) ∧
    (pcbSolid ≠ baseSolid ∧ pcbSolid ≠ shellSolid) :=
  ⟨c9_ghosts_never_exported.2.2.1 true _ (by simp [mainTrace]),
   c9_ghosts_never_exported.2.2.2 pcbSolid (by simp)⟩

end DecoyCase

namespace DecoyCase

/-- C2: the shell's hollow cavity footprint (`cavity_l × cavity_w`) matches
the footprint of the base's rim (the outer box of the lip build, which is the
mating surface of the rim) to within `fit_tol = 0.20` mm in each horizontal
dimension: the difference is exactly `fit_tol` in x and in y. -/
theorem c2_cavity_matches_rim :
    Op.add lipOuterShape [lipInnerShape] ∈ baseOps ∧
    Op.sub (cavityShape internal_h) ∈ shellOps ∧
    lenX (cavityShape internal_h) = cavity_l ∧
    lenY (cavityShape internal_h) = cavity_w ∧
    lenX lipOuterShape = cavity_l - fit_tol ∧
    lenY lipOuterShape = cavity_w - fit_tol ∧
    |lenX (cavityShape internal_h) - lenX lipOuterShape| ≤ fit_tol ∧
    |lenY (cavityShape internal_h) - lenY lipOuterShape| ≤ fit_tol ∧
    fit_tol = 0.20 := by
  refine ⟨?_, ?_, rfl, rfl, rfl, rfl, ?_, ?_, rfl⟩
  · simp [baseOps]
  · simp [shellOps, shellOpsP]
  · norm_num [lenX, cavityShape, lipOuterShape, cavity_l, fit_tol, pcb_len, abs_le]
  · norm_num [lenY, cavityShape, lipOuterShape, cavity_w, fit_tol, pcb_wid,
      screw_post_dia, pcb_xy_tol, abs_le]

/-- C10: the terminal-side hold-down block generated by the shell builder has
a square `term_block_len × term_block_len` footprint (8.5 mm × 8.5 mm); its
width is `term_block_len`, which is strictly smaller than the terminal-block
ghost's actual width `pcb_wid - 1.0` (10 mm), so it presses only on a strip
narrower than the terminal block. -/
theorem c10_term_hold_down_width :
    Op.add (termHoldShape internal_h
      (internal_h - (standoff_h + pcb_thick + term_block_h))) [] ∈ shellOps ∧
    internal_h - (standoff_h + pcb_thick + term_block_h) = 1.4 ∧
    lenX (termHoldShape internal_h (1.4 : ℚ)) = term_block_len ∧
    lenY (termHoldShape internal_h (1.4 : ℚ)) = term_block_len ∧
    lenY termShape = pcb_wid - 1.0 ∧
    term_block_len = 8.5 ∧
    pcb_wid - 1.0 = 10.0 ∧
    term_block_len < pcb_wid - 1.0 := by
  refine ⟨?_, ?_, rfl, rfl, rfl, rfl, ?_, ?_⟩
  · norm_num [shellOps, shellOpsP, internal_h, standoff_h, pcb_thick, usb_h, term_block_h]
  · norm_num [internal_h, standoff_h, pcb_thick, term_block_h]
  · norm_num [pcb_wid]
  · norm_num [term_block_len, pcb_wid]

/-- C5: the base's four screw-hole centres and the shell's four post centres
are the same list `(±post_offset_x, ±post_offset_y)`; the base subtracts a
clearance cylinder and a counterbore cylinder at each centre, and the shell
adds a post cylinder and subtracts a pilot-hole cylinder at each centre, so
each shell post is concentric with the corresponding base hole. -/
theorem c5_posts_concentric :
    screwCenters = cornerXY ∧
    (∀ c ∈ screwCenters,
      Op.sub (clearShape c) ∈ baseOps ∧ Op.sub (cbShape c) ∈ baseOps) ∧
    (∀ c ∈ cornerXY,
      Op.add (Shape.cyl c.1 c.2 0 post_r internal_h .min) [] ∈ shellOps ∧
      Op.sub (Shape.cyl c.1 c.2 0 (screw_pilot_dia / 2) internal_h .min) ∈ shellOps) := by
  refine ⟨rfl, ?_, ?_⟩
  · intro c hc
    fin_cases hc <;>
      exact ⟨by simp [baseOps, screwClearOps, screwCenters],
             by simp [baseOps, screwCbOps, screwCenters]⟩
  · intro c hc
    fin_cases hc <;>
      exact ⟨by simp [shellOps, shellOpsP, postOps, cornerXY],
             by simp [shellOps, shellOpsP, postOps, cornerXY]⟩

/-- C5 witness: `c5_posts_concentric` applied at the first centre. -/
theorem c5_posts_concentric_witness :
    (Op.sub (clearShape (-post_offset_x, -post_offset_y)) ∈ baseOps ∧
      Op.sub (cbShape (-post_offset_x, -post_offset_y)) ∈ baseOps) ∧
    (Op.add (Shape.cyl (-post_offset_x) (-post_offset_y) 0 post_r internal_h .min) [] ∈ shellOps ∧
      Op.sub (Shape.cyl (-post_offset_x) (-post_offset_y) 0 (screw_pilot_dia / 2) internal_h .min) ∈ shellOps) :=
  ⟨c5_posts_concentric.2.1 (-post_offset_x, -post_offset_y) (by simp [screwCenters]),
   c5_posts_concentric.2.2 (-post_offset_x, -post_offset_y) (by simp [cornerXY])⟩

end DecoyCase

namespace DecoyCase

/-- C1: for any values of the five height parameters, the shell builder emits
the connector-side (terminal-side) hold-down block iff its computed clearance
`internal_h - (standoff_h + pcb_thick + component_height)` is strictly
positive; at the script's values the connector-side clearance is
`16.0 - (2.5 + 1.6 + 3.6) = 8.3 > 0`, so that block is generated. -/
theorem c1_hold_down_iff :
    (∀ ih sh pt uh th : ℚ,
      (Op.add (usbHoldShape ih (ih - (sh + pt + uh))) [] ∈ shellOpsP ih sh pt uh th ↔
        0 < ih - (sh + pt + uh)) ∧
      (Op.add (termHoldShape ih (ih - (sh + pt + th))) [] ∈ shellOpsP ih sh pt uh th ↔
        0 < ih - (sh + pt + th))) ∧
    internal_h - (standoff_h + pcb_thick + usb_h) = 8.3 ∧
    (0 : ℚ) < internal_h - (standoff_h + pcb_thick + usb_h) ∧
    Op.add (usbHoldShape internal_h (internal_h - (standoff_h + pcb_thick + usb_h))) []
      ∈ shellOps := by
  refine ⟨?_, ?_, ?_, ?_⟩
  · intro ih sh pt uh th
    constructor <;>
      by_cases hu : 0 < ih - (sh + pt + uh) <;> by_cases ht : 0 < ih - (sh + pt + th) <;>
        simp [shellOpsP, hu, ht, postOps, cornerXY, usbHoldShape, termHoldShape,
          shellBlockShape, cavityShape, usbCutShellShape, clampArchShape, sgn,
          post_offset_x, post_offset_y, post_r, pcb_len, usb_len_metal, usb_w,
          term_block_len, screw_pilot_dia, outer_l, outer_w, cavity_l, cavity_w,
          wall_thick, usb_cut_w, slot_w, pcb_wid, screw_post_dia, pcb_xy_tol,
          fit_tol] <;>
        norm_num
  · norm_num [internal_h, standoff_h, pcb_thick, usb_h]
  · norm_num [internal_h, standoff_h, pcb_thick, usb_h]
  · norm_num [shellOps, shellOpsP, internal_h, standoff_h, pcb_thick, usb_h, term_block_h]

end DecoyCase

namespace DecoyCase

/-- If the built solid contains `p`, some additive step's positive shape
contains `p`. -/
theorem runOps_true_addShapes {ops : List Op} {p : P3} (h : runOps ops p = true) :
    ∃ s, s ∈ addShapes ops ∧ s.mem p = true := by
  rcases runFrom_true_elim h with hacc | ⟨s, negs, hm, hs⟩
  · exact absurd hacc (by simp)
  · exact ⟨s, List.mem_filterMap.mpr ⟨Op.add s negs, hm, rfl⟩, hs⟩

/-- Componentwise bounds from a disc membership. -/
theorem disc_bounds {a b r : ℚ} (h : a ^ 2 + b ^ 2 ≤ r ^ 2) (hr : 0 ≤ r) :
    -r ≤ a ∧ a ≤ r ∧ -r ≤ b ∧ b ≤ r := by
  have ha : a ^ 2 ≤ r ^ 2 := by linarith [sq_nonneg b]
  have hb : b ^ 2 ≤ r ^ 2 := by linarith [sq_nonneg a]
  obtain ⟨h1, h2⟩ := abs_le_of_sq_le_sq' ha hr
  obtain ⟨h3, h4⟩ := abs_le_of_sq_le_sq' hb hr
  exact ⟨h1, h2, h3, h4⟩

/-- At the script's parameters both hold-down clearances are positive, so the
shell builder's step list is the fully unfolded list below. -/
theorem shellOps_eval : shellOps =
    [Op.add (shellBlockShape internal_h) [],
     Op.sub (cavityShape internal_h)]
    ++ postOps internal_h
    ++ [Op.add (usbHoldShape internal_h (internal_h - (standoff_h + pcb_thick + usb_h))) [],
        Op.add (termHoldShape internal_h (internal_h - (standoff_h + pcb_thick + term_block_h))) [],
        Op.sub (usbCutShellShape standoff_h pcb_thick usb_h),
        Op.sub (clampArchShape standoff_h)] := by
  rw [shellOps, shellOpsP,
    if_pos (show (0:ℚ) < internal_h - (standoff_h + pcb_thick + usb_h) by
      norm_num [internal_h, standoff_h, pcb_thick, usb_h]),
    if_pos (show (0:ℚ) < internal_h - (standoff_h + pcb_thick + term_block_h) by
      norm_num [internal_h, standoff_h, pcb_thick, term_block_h])]
  simp

theorem sgn_pox : sgn post_offset_x = 1 := by
  norm_num [sgn, post_offset_x, cavity_l, pcb_len, screw_post_dia]

theorem sgn_poy : sgn post_offset_y = 1 := by
  norm_num [sgn, post_offset_y, cavity_w, pcb_wid, screw_post_dia, pcb_xy_tol]

theorem sgn_neg_pox : sgn (-post_offset_x) = -1 := by
  norm_num [sgn, post_offset_x, cavity_l, pcb_len, screw_post_dia]

theorem sgn_neg_poy : sgn (-post_offset_y) = -1 := by
  norm_num [sgn, post_offset_y, cavity_w, pcb_wid, screw_post_dia, pcb_xy_tol]

/-- The base builder's additive shapes, in order. -/
theorem base_addShapes_eq :
    addShapes baseOps =
      [floorShape, lipOuterShape, recessOuterShape,
       Shape.box soff_back_x (-soff_offset_y) floor_thick soff_size soff_size standoff_h .center .center .min,
       Shape.box soff_back_x soff_offset_y floor_thick soff_size soff_size standoff_h .center .center .min,
       Shape.box soff_front_x (-soff_offset_y) floor_thick soff_size soff_size standoff_h .center .center .min,
       Shape.box soff_front_x soff_offset_y floor_thick soff_size soff_size standoff_h .center .center .min,
       clampAnvilShape, usbAnvilShape] := rfl

/-- Upper and lower bounds of the base solid in each axis. -/
theorem base_bbox (p : P3) (h : baseSolid p = true) :
    -(outer_l / 2) ≤ p.x ∧ p.x ≤ outer_l / 2 ∧ -(outer_w / 2) ≤ p.y ∧ p.y ≤ outer_w / 2 ∧
    0 ≤ p.z ∧ p.z ≤ floor_thick + clamp_anvil_h := by
  obtain ⟨s, hsm, hs⟩ := runOps_true_addShapes h
  rw [base_addShapes_eq] at hsm
  simp only [List.mem_cons, List.not_mem_nil, or_false] at hsm
  rcases hsm with rfl | rfl | rfl | rfl | rfl | rfl | rfl | rfl | rfl <;>
  · simp only [floorShape, lipOuterShape, recessOuterShape, clampAnvilShape, usbAnvilShape,
      box_mem_iff, Align.lo, Align.hi] at hs
    norm_num [outer_l, outer_w, cavity_l, cavity_w, pcb_len, pcb_wid, wall_thick,
      screw_post_dia, pcb_xy_tol, floor_thick, fit_tol, lip_height, recess_h, recess_wall_t,
      soff_size, soff_offset_y, soff_back_x, soff_front_x, standoff_h, slot_w,
      clamp_anvil_h, wire_center_h, wire_h_from_pcb, slot_h, usb_cut_w, usb_anvil_h] at hs ⊢
    obtain ⟨h1, h2, h3, h4, h5, h6⟩ := hs
    exact ⟨by linarith, by linarith, by linarith, by linarith, by linarith, by linarith⟩

set_option maxHeartbeats 1600000 in
/-- Upper and lower bounds of the shell solid in each axis. -/
theorem shell_bbox (p : P3) (h : shellSolid p = true) :
    -(outer_l / 2) ≤ p.x ∧ p.x ≤ outer_l / 2 ∧ -(outer_w / 2) ≤ p.y ∧ p.y ≤ outer_w / 2 ∧
    0 ≤ p.z ∧ p.z ≤ shell_ext_h := by
  delta shellSolid at h
  rw [shellOps_eval] at h
  obtain ⟨s, hsm, hs⟩ := runOps_true_addShapes h
  rw [show addShapes
    ([Op.add (shellBlockShape internal_h) [],
     Op.sub (cavityShape internal_h)]
    ++ postOps internal_h
    ++ [Op.add (usbHoldShape internal_h (internal_h - (standoff_h + pcb_thick + usb_h))) [],
        Op.add (termHoldShape internal_h (internal_h - (standoff_h + pcb_thick + term_block_h))) [],
        Op.sub (usbCutShellShape standoff_h pcb_thick usb_h),
        Op.sub (clampArchShape standoff_h)]) =
    [shellBlockShape internal_h,
     Shape.cyl (-post_offset_x) (-post_offset_y) 0 post_r internal_h .min,
     Shape.box (-post_offset_x + sgn (-post_offset_x) * (post_r / 2)) (-post_offset_y + sgn (-post_offset_y) * (post_r / 2)) 0 post_r post_r internal_h .center .center .min,
     Shape.cyl (-post_offset_x) post_offset_y 0 post_r internal_h .min,
     Shape.box (-post_offset_x + sgn (-post_offset_x) * (post_r / 2)) (post_offset_y + sgn post_offset_y * (post_r / 2)) 0 post_r post_r internal_h .center .center .min,
     Shape.cyl post_offset_x (-post_offset_y) 0 post_r internal_h .min,
     Shape.box (post_offset_x + sgn post_offset_x * (post_r / 2)) (-post_offset_y + sgn (-post_offset_y) * (post_r / 2)) 0 post_r post_r internal_h .center .center .min,
     Shape.cyl post_offset_x post_offset_y 0 post_r internal_h .min,
     Shape.box (post_offset_x + sgn post_offset_x * (post_r / 2)) (post_offset_y + sgn post_offset_y * (post_r / 2)) 0 post_r post_r internal_h .center .center .min,
     usbHoldShape internal_h (internal_h - (standoff_h + pcb_thick + usb_h)),
     termHoldShape internal_h (internal_h - (standoff_h + pcb_thick + term_block_h))] from rfl] at hsm
  have e1 : outer_l = 337/10 := by norm_num [outer_l, cavity_l, pcb_len, wall_thick]
  have e2 : outer_w = 527/20 := by
    norm_num [outer_w, cavity_w, pcb_wid, wall_thick, screw_post_dia, pcb_xy_tol]
  have e5 : post_offset_x = 49/4 := by norm_num [post_offset_x, cavity_l, pcb_len, screw_post_dia]
  have e6 : post_offset_y = 343/40 := by
    norm_num [post_offset_y, cavity_w, pcb_wid, screw_post_dia, pcb_xy_tol]
  have e7 : post_r = 3 := by norm_num [post_r, screw_post_dia]
  have e8 : internal_h = 16 := by norm_num [internal_h]
  have e9 : wall_thick = 8/5 := by norm_num [wall_thick]
  have e10 : shell_ext_h = 88/5 := by norm_num [shell_ext_h, internal_h, wall_thick]
  have e11 : usb_len_metal = 7 := by norm_num [usb_len_metal]
  have e12 : usb_w = 9 := by norm_num [usb_w]
  have e13 : usb_h = 18/5 := by norm_num [usb_h]
  have e14 : standoff_h = 5/2 := by norm_num [standoff_h]
  have e15 : pcb_thick = 8/5 := by norm_num [pcb_thick]
  have e16 : term_block_len = 17/2 := by norm_num [term_block_len]
  have e17 : term_block_h = 21/2 := by norm_num [term_block_h]
  have e18 : pcb_len = 57/2 := by norm_num [pcb_len]
  have hr3 : (0:ℚ) ≤ post_r := by rw [e7]; norm_num
  simp only [List.mem_cons, List.not_mem_nil, or_false] at hsm
  rcases hsm with rfl | rfl | rfl | rfl | rfl | rfl | rfl | rfl | rfl | rfl | rfl <;>
    simp only [shellBlockShape, usbHoldShape, termHoldShape, sgn_pox, sgn_poy,
      sgn_neg_pox, sgn_neg_poy, box_mem_iff, cyl_mem_iff, Align.lo, Align.hi] at hs <;>
    first
      | (obtain ⟨h1, h2, h3, h4, h5, h6⟩ := hs
         exact ⟨by linarith, by linarith, by linarith, by linarith, by linarith, by linarith⟩)
      | (obtain ⟨hd, hz1, hz2⟩ := hs
         obtain ⟨ha1, ha2, hb1, hb2⟩ := disc_bounds hd hr3
         exact ⟨by linarith, by linarith, by linarith, by linarith, by linarith, by linarith⟩)

end DecoyCase

namespace DecoyCase

/-- C3 counterexample: the claim "the base solid's bounding box has Z height
`floor_thick` within a small epsilon" is false: the finished base contains a
point at `z = 11` (inside the wire-clamp anvil), which exceeds
`floor_thick = 4` by 7 mm. -/
theorem c3_base_height_counterexample :
    baseSolid ⟨16, 2, 11⟩ = true ∧ floor_thick = 4 ∧ floor_thick + 2 < 11 := by
  refine ⟨?_, by norm_num [floor_thick], by norm_num [floor_thick]⟩
  norm_num [baseSolid, runOps, runFrom, Op.apply, baseOps, lipCornerCuts, cornerXY, sgn,
    standoffOps, standoffShapes, screwClearOps, screwCbOps, screwCenters, Shape.mem,
    Align.lo, Align.hi, floorShape, lipOuterShape, lipInnerShape, slotShape,
    recessOuterShape, recessInnerShape, recessPostNegs, clearShape, cbShape,
    clampAnvilShape, usbAnvilShape, usbCutBaseShape, pcb_len, pcb_wid, pcb_thick,
    usb_len_metal, usb_w, usb_h, term_block_len, term_block_h, wall_thick, floor_thick,
    fit_tol, standoff_h, recess_h, usb_anvil_h, usb_cut_w, internal_h, slot_w, slot_h,
    wire_h_from_pcb, wire_center_h, clamp_anvil_h, clamp_arch_top, screw_post_dia,
    screw_pilot_dia, screw_clear_dia, head_dia, cb_depth, pcb_xy_tol, cavity_l, cavity_w,
    outer_l, outer_w, post_offset_x, post_offset_y, post_r, lip_height, recess_wall_t,
    soff_size, soff_offset_y, soff_back_x, soff_front_x, cut_depth]

/-- C3 (amended): the axis-aligned bounding box of each exported solid is
`outer_l × outer_w` in x,y; the shell's z height is `shell_ext_h`, while the
base's z height is `floor_thick + clamp_anvil_h` (= 11.35 mm, set by the
wire-clamp anvil rising above the floor), not `floor_thick`.  Each bound is
attained by an explicit point of the solid. -/
theorem c3_bounding_boxes :
    (∀ p : P3, baseSolid p = true →
      -(outer_l / 2) ≤ p.x ∧ p.x ≤ outer_l / 2 ∧ -(outer_w / 2) ≤ p.y ∧ p.y ≤ outer_w / 2 ∧
      0 ≤ p.z ∧ p.z ≤ floor_thick + clamp_anvil_h) ∧
    baseSolid ⟨outer_l / 2, outer_w / 2, 0⟩ = true ∧
    baseSolid ⟨-(outer_l / 2), -(outer_w / 2), 0⟩ = true ∧
    baseSolid ⟨16, 0, floor_thick + clamp_anvil_h⟩ = true ∧
    (∀ p : P3, shellSolid p = true →
      -(outer_l / 2) ≤ p.x ∧ p.x ≤ outer_l / 2 ∧ -(outer_w / 2) ≤ p.y ∧ p.y ≤ outer_w / 2 ∧
      0 ≤ p.z ∧ p.z ≤ shell_ext_h) ∧
    shellSolid ⟨outer_l / 2, outer_w / 2, 0⟩ = true ∧
    shellSolid ⟨-(outer_l / 2), -(outer_w / 2), shell_ext_h⟩ = true := by
  refine ⟨base_bbox, ?_, ?_, ?_, shell_bbox, ?_, ?_⟩ <;>
    norm_num [baseSolid, shellSolid, runOps, runFrom, Op.apply, baseOps, shellOps, shellOpsP,
      postOps, lipCornerCuts, cornerXY, sgn, standoffOps, standoffShapes, screwClearOps,
      screwCbOps, screwCenters, Shape.mem, Align.lo, Align.hi, floorShape, lipOuterShape,
      lipInnerShape, slotShape, recessOuterShape, recessInnerShape, recessPostNegs,
      clearShape, cbShape, clampAnvilShape, usbAnvilShape, usbCutBaseShape,
      shellBlockShape, cavityShape, usbHoldShape, termHoldShape, usbCutShellShape,
      clampArchShape, shell_ext_h, pcb_len, pcb_wid, pcb_thick, usb_len_metal, usb_w,
      usb_h, term_block_len, term_block_h, wall_thick, floor_thick, fit_tol, standoff_h,
      recess_h, usb_anvil_h, usb_cut_w, internal_h, slot_w, slot_h, wire_h_from_pcb,
      wire_center_h, clamp_anvil_h, clamp_arch_top, screw_post_dia, screw_pilot_dia,
      screw_clear_dia, head_dia, cb_depth, pcb_xy_tol, cavity_l, cavity_w, outer_l,
      outer_w, post_offset_x, post_offset_y, post_r, lip_height, recess_wall_t, soff_size,
      soff_offset_y, soff_back_x, soff_front_x, cut_depth]

/-- C3 witness: the bound parts of `c3_bounding_boxes` applied at concrete
points of each solid. -/
theorem c3_bounding_boxes_witness :
    (-(outer_l / 2) ≤ (16:ℚ) ∧ (16:ℚ) ≤ outer_l / 2 ∧ -(outer_w / 2) ≤ (2:ℚ) ∧
      (2:ℚ) ≤ outer_w / 2 ∧ (0:ℚ) ≤ (11:ℚ) ∧ (11:ℚ) ≤ floor_thick + clamp_anvil_h) ∧
    (-(outer_l / 2) ≤ (16:ℚ) ∧ (16:ℚ) ≤ outer_l / 2 ∧ -(outer_w / 2) ≤ (11:ℚ) ∧
      (11:ℚ) ≤ outer_w / 2 ∧ (0:ℚ) ≤ (0:ℚ) ∧ (0:ℚ) ≤ shell_ext_h) :=
  ⟨c3_bounding_boxes.1 ⟨16, 2, 11⟩ (by
    norm_num [baseSolid, runOps, runFrom, Op.apply, baseOps, lipCornerCuts, cornerXY, sgn,
      standoffOps, standoffShapes, screwClearOps, screwCbOps, screwCenters, Shape.mem,
      Align.lo, Align.hi, floorShape, lipOuterShape, lipInnerShape, slotShape,
      recessOuterShape, recessInnerShape, recessPostNegs, clearShape, cbShape,
      clampAnvilShape, usbAnvilShape, usbCutBaseShape, pcb_len, pcb_wid, pcb_thick,
      usb_len_metal, usb_w, usb_h, term_block_len, term_block_h, wall_thick, floor_thick,
      fit_tol, standoff_h, recess_h, usb_anvil_h, usb_cut_w, internal_h, slot_w, slot_h,
      wire_h_from_pcb, wire_center_h, clamp_anvil_h, clamp_arch_top, screw_post_dia,
      screw_pilot_dia, screw_clear_dia, head_dia, cb_depth, pcb_xy_tol, cavity_l, cavity_w,
      outer_l, outer_w, post_offset_x, post_offset_y, post_r, lip_height, recess_wall_t,
      soff_size, soff_offset_y, soff_back_x, soff_front_x, cut_depth]),
   c3_bounding_boxes.2.2.2.2.1 ⟨16, 11, 0⟩ (by
    norm_num [shellSolid, runOps, runFrom, Op.apply, shellOps, shellOpsP, postOps,
      cornerXY, sgn, Shape.mem, Align.lo, Align.hi, shellBlockShape, cavityShape,
      usbHoldShape, termHoldShape, usbCutShellShape, clampArchShape, pcb_len, pcb_wid,
      pcb_thick, usb_len_metal, usb_w, usb_h, term_block_len, term_block_h, wall_thick,
      floor_thick, fit_tol, standoff_h, internal_h, slot_w, slot_h, wire_h_from_pcb,
      usb_cut_w, screw_post_dia, screw_pilot_dia, pcb_xy_tol, cavity_l, cavity_w,
      outer_l, outer_w, post_offset_x, post_offset_y, post_r])⟩

end DecoyCase

namespace DecoyCase

set_option maxHeartbeats 3200000 in
/-- Full penetration of the screw clearance holes: the final base solid
contains no point whose (x, y) lies in any clearance-hole disc — each hole is
a true through-hole with no residual material anywhere in its column. -/
theorem base_clear_column :
    ∀ c ∈ screwCenters, ∀ p : P3,
      (p.x - c.1) ^ 2 + (p.y - c.2) ^ 2 ≤ (screw_clear_dia / 2) ^ 2 →
      baseSolid p = false := by
  intro c hc p hdisc
  have e1 : post_offset_x = 49/4 := by norm_num [post_offset_x, cavity_l, pcb_len, screw_post_dia]
  have e2 : post_offset_y = 343/40 := by
    norm_num [post_offset_y, cavity_w, pcb_wid, screw_post_dia, pcb_xy_tol]
  have e3 : screw_clear_dia = 16/5 := by norm_num [screw_clear_dia]
  have e4 : floor_thick = 4 := by norm_num [floor_thick]
  have e5 : lip_height = 5/2 := by norm_num [lip_height]
  have e6 : cavity_l = 61/2 := by norm_num [cavity_l, pcb_len]
  have e7 : cavity_w = 463/20 := by norm_num [cavity_w, pcb_wid, screw_post_dia, pcb_xy_tol]
  have e8 : fit_tol = 1/5 := by norm_num [fit_tol]
  have e9 : pcb_wid = 11 := by norm_num [pcb_wid]
  have e10 : pcb_xy_tol = 3/20 := by norm_num [pcb_xy_tol]
  have e11 : recess_wall_t = 6/5 := by norm_num [recess_wall_t]
  have e12 : pcb_len = 57/2 := by norm_num [pcb_len]
  have e13 : soff_offset_y = 5 := by norm_num [soff_offset_y, pcb_wid, soff_size]
  have e14 : soff_size = 1 := by norm_num [soff_size]
  have e15 : soff_back_x = 55/4 := by norm_num [soff_back_x, pcb_len, soff_size]
  have e16 : soff_front_x = -(251/20) := by norm_num [soff_front_x, pcb_len, soff_size]
  have e17 : standoff_h = 5/2 := by norm_num [standoff_h]
  have e18 : slot_w = 7 := by norm_num [slot_w]
  have e19 : clamp_anvil_h = 147/20 := by
    norm_num [clamp_anvil_h, wire_center_h, standoff_h, wire_h_from_pcb, slot_h]
  have e20 : usb_cut_w = 12 := by norm_num [usb_cut_w]
  have e21 : wall_thick = 8/5 := by norm_num [wall_thick]
  have e22 : outer_l = 337/10 := by norm_num [outer_l, cavity_l, pcb_len, wall_thick]
  have e23 : outer_w = 527/20 := by
    norm_num [outer_w, cavity_w, pcb_wid, wall_thick, screw_post_dia, pcb_xy_tol]
  have e24 : usb_anvil_h = 2 := by norm_num [usb_anvil_h]
  have e25 : recess_h = 19/5 := by norm_num [recess_h]
  fin_cases hc <;> dsimp only at hdisc <;>
  · obtain ⟨hx1, hx2, hy1, hy2⟩ := disc_bounds hdisc (by norm_num [screw_clear_dia])
    have hrecF : recessOuterShape.mem p = false := mem_false_of_not fun hm => by
      simp only [recessOuterShape, box_mem_iff, Align.lo, Align.hi] at hm
      linarith [hm.2.2.1, hm.2.2.2.1]
    have hsoffF1 : (Shape.box soff_back_x (-soff_offset_y) floor_thick soff_size soff_size
        standoff_h .center .center .min).mem p = false := mem_false_of_not fun hm => by
      simp only [box_mem_iff, Align.lo, Align.hi] at hm
      linarith [hm.2.2.1, hm.2.2.2.1]
    have hsoffF2 : (Shape.box soff_back_x soff_offset_y floor_thick soff_size soff_size
        standoff_h .center .center .min).mem p = false := mem_false_of_not fun hm => by
      simp only [box_mem_iff, Align.lo, Align.hi] at hm
      linarith [hm.2.2.1, hm.2.2.2.1]
    have hsoffF3 : (Shape.box soff_front_x (-soff_offset_y) floor_thick soff_size soff_size
        standoff_h .center .center .min).mem p = false := mem_false_of_not fun hm => by
      simp only [box_mem_iff, Align.lo, Align.hi] at hm
      linarith [hm.2.2.1, hm.2.2.2.1]
    have hsoffF4 : (Shape.box soff_front_x soff_offset_y floor_thick soff_size soff_size
        standoff_h .center .center .min).mem p = false := mem_false_of_not fun hm => by
      simp only [box_mem_iff, Align.lo, Align.hi] at hm
      linarith [hm.2.2.1, hm.2.2.2.1]
    have hclampF : clampAnvilShape.mem p = false := mem_false_of_not fun hm => by
      simp only [clampAnvilShape, box_mem_iff, Align.lo, Align.hi] at hm
      linarith [hm.2.2.1, hm.2.2.2.1]
    have husbAnvF : usbAnvilShape.mem p = false := mem_false_of_not fun hm => by
      simp only [usbAnvilShape, box_mem_iff, Align.lo, Align.hi] at hm
      linarith [hm.2.2.1, hm.2.2.2.1]
    have hlipC : (lipOuterShape.mem p && !(lipInnerShape.mem p)) = false := by
      by_cases hzL : floor_thick ≤ p.z ∧ p.z ≤ floor_thick + lip_height
      · have hin : lipInnerShape.mem p = true := by
          simp only [lipInnerShape, box_mem_iff, Align.lo, Align.hi]
          refine ⟨by linarith, by linarith, by linarith, by linarith, by linarith, by linarith⟩
        rw [hin]
        simp
      · have hout : lipOuterShape.mem p = false := mem_false_of_not fun hm => by
          simp only [lipOuterShape, box_mem_iff, Align.lo, Align.hi] at hm
          exact hzL ⟨hm.2.2.2.2.1, hm.2.2.2.2.2⟩
        rw [hout]
        simp
    by_cases hzC : 0 - floor_thick * 3 / 2 ≤ p.z ∧ p.z ≤ 0 + floor_thick * 3 / 2
    · first
        | (have hclT : (clearShape (-post_offset_x, -post_offset_y)).mem p = true := by
             simp only [clearShape, cyl_mem_iff, Align.lo, Align.hi]
             exact ⟨hdisc, hzC.1, hzC.2⟩
           simp only [baseSolid, runOps, runFrom, Op.apply, baseOps, lipCornerCuts, cornerXY,
             standoffOps, standoffShapes, screwClearOps, screwCbOps, screwCenters,
             List.flatMap_cons, List.flatMap_nil, List.map_cons, List.map_nil,
             List.cons_append, List.nil_append, List.append_nil, List.all_cons, List.all_nil,
             hclT, hclampF, husbAnvF, Bool.and_true, Bool.and_false, Bool.not_true,
             Bool.false_and, Bool.false_or, Bool.or_false, Bool.true_and, Bool.not_false,
             Bool.or_true, Bool.true_or])
        | (have hclT : (clearShape (-post_offset_x, post_offset_y)).mem p = true := by
             simp only [clearShape, cyl_mem_iff, Align.lo, Align.hi]
             exact ⟨hdisc, hzC.1, hzC.2⟩
           simp only [baseSolid, runOps, runFrom, Op.apply, baseOps, lipCornerCuts, cornerXY,
             standoffOps, standoffShapes, screwClearOps, screwCbOps, screwCenters,
             List.flatMap_cons, List.flatMap_nil, List.map_cons, List.map_nil,
             List.cons_append, List.nil_append, List.append_nil, List.all_cons, List.all_nil,
             hclT, hclampF, husbAnvF, Bool.and_true, Bool.and_false, Bool.not_true,
             Bool.false_and, Bool.false_or, Bool.or_false, Bool.true_and, Bool.not_false,
             Bool.or_true, Bool.true_or])
        | (have hclT : (clearShape (post_offset_x, -post_offset_y)).mem p = true := by
             simp only [clearShape, cyl_mem_iff, Align.lo, Align.hi]
             exact ⟨hdisc, hzC.1, hzC.2⟩
           simp only [baseSolid, runOps, runFrom, Op.apply, baseOps, lipCornerCuts, cornerXY,
             standoffOps, standoffShapes, screwClearOps, screwCbOps, screwCenters,
             List.flatMap_cons, List.flatMap_nil, List.map_cons, List.map_nil,
             List.cons_append, List.nil_append, List.append_nil, List.all_cons, List.all_nil,
             hclT, hclampF, husbAnvF, Bool.and_true, Bool.and_false, Bool.not_true,
             Bool.false_and, Bool.false_or, Bool.or_false, Bool.true_and, Bool.not_false,
             Bool.or_true, Bool.true_or])
        | (have hclT : (clearShape (post_offset_x, post_offset_y)).mem p = true := by
             simp only [clearShape, cyl_mem_iff, Align.lo, Align.hi]
             exact ⟨hdisc, hzC.1, hzC.2⟩
           simp only [baseSolid, runOps, runFrom, Op.apply, baseOps, lipCornerCuts, cornerXY,
             standoffOps, standoffShapes, screwClearOps, screwCbOps, screwCenters,
             List.flatMap_cons, List.flatMap_nil, List.map_cons, List.map_nil,
             List.cons_append, List.nil_append, List.append_nil, List.all_cons, List.all_nil,
             hclT, hclampF, husbAnvF, Bool.and_true, Bool.and_false, Bool.not_true,
             Bool.false_and, Bool.false_or, Bool.or_false, Bool.true_and, Bool.not_false,
             Bool.or_true, Bool.true_or])
    · have hfloorF : floorShape.mem p = false := mem_false_of_not fun hm => by
        simp only [floorShape, box_mem_iff, Align.lo, Align.hi] at hm
        rcases not_and_or.mp hzC with h | h
        · push_neg at h
          linarith [hm.2.2.2.2.1]
        · push_neg at h
          linarith [hm.2.2.2.2.2]
      simp only [baseSolid, runOps, runFrom, Op.apply, baseOps, lipCornerCuts, cornerXY,
        standoffOps, standoffShapes, screwClearOps, screwCbOps, screwCenters,
        List.flatMap_cons, List.flatMap_nil, List.map_cons, List.map_nil,
        List.cons_append, List.nil_append, List.append_nil, List.all_cons, List.all_nil,
        hfloorF, hlipC, hrecF, hsoffF1, hsoffF2, hsoffF3, hsoffF4, hclampF, husbAnvF,
        Bool.and_true, Bool.and_false, Bool.not_true, Bool.false_and, Bool.false_or,
        Bool.or_false, Bool.true_and, Bool.not_false, Bool.or_true, Bool.true_or]

end DecoyCase

namespace DecoyCase

/-- Full penetration of the rim slot: right after the slot cut, no material
above the floor remains anywhere in the slot's y-band on the back half of the
part — the slot goes clear through the rim. -/
theorem base_slot_penetrates :
    ∀ p : P3, 0 ≤ p.x → -(slot_w / 2) ≤ p.y → p.y ≤ slot_w / 2 → floor_thick < p.z →
      runOps baseOpsThroughSlot p = false := by
  intro p hx hy1 hy2 hz
  have e4 : floor_thick = 4 := by norm_num [floor_thick]
  have e5 : lip_height = 5/2 := by norm_num [lip_height]
  have e6 : cavity_l = 61/2 := by norm_num [cavity_l, pcb_len]
  have e7 : cavity_w = 463/20 := by norm_num [cavity_w, pcb_wid, screw_post_dia, pcb_xy_tol]
  have e8 : fit_tol = 1/5 := by norm_num [fit_tol]
  have e18 : slot_w = 7 := by norm_num [slot_w]
  have e21 : wall_thick = 8/5 := by norm_num [wall_thick]
  have e22 : outer_l = 337/10 := by norm_num [outer_l, cavity_l, pcb_len, wall_thick]
  have e23 : outer_w = 527/20 := by
    norm_num [outer_w, cavity_w, pcb_wid, wall_thick, screw_post_dia, pcb_xy_tol]
  have hfloorF : floorShape.mem p = false := mem_false_of_not fun hm => by
    simp only [floorShape, box_mem_iff, Align.lo, Align.hi] at hm
    linarith [hm.2.2.2.2.2]
  cases hslot : slotShape.mem p with
  | true =>
    simp only [runOps, runFrom, Op.apply, baseOpsThroughSlot, lipCornerCuts, cornerXY,
      List.flatMap_cons, List.flatMap_nil, List.cons_append, List.nil_append,
      List.append_nil, List.all_cons, List.all_nil, hslot, Bool.and_true, Bool.and_false,
      Bool.not_true, Bool.false_and, Bool.false_or, Bool.or_false, Bool.true_and,
      Bool.not_false, Bool.or_true, Bool.true_or]
  | false =>
    have hlipC : (lipOuterShape.mem p && !(lipInnerShape.mem p)) = false := by
      cases houter : lipOuterShape.mem p with
      | false => simp
      | true =>
        have hob := houter
        simp only [lipOuterShape, box_mem_iff, Align.lo, Align.hi] at hob
        by_cases hxin : p.x ≤ 0 + (cavity_l - fit_tol - 2.4) / 2
        · have hin : lipInnerShape.mem p = true := by
            simp only [lipInnerShape, box_mem_iff, Align.lo, Align.hi]
            refine ⟨by linarith, by linarith, by linarith, by linarith,
              by linarith [hob.2.2.2.2.1], by linarith [hob.2.2.2.2.2]⟩
          rw [hin]
          simp
        · exfalso
          have hst : slotShape.mem p = true := by
            simp only [slotShape, box_mem_iff, Align.lo, Align.hi]
            refine ⟨by linarith, by linarith [hob.2.1], by linarith, by linarith,
              by linarith [hob.2.2.2.2.1], by linarith [hob.2.2.2.2.2]⟩
          rw [hst] at hslot
          exact Bool.noConfusion hslot
    simp only [runOps, runFrom, Op.apply, baseOpsThroughSlot, lipCornerCuts, cornerXY,
      List.flatMap_cons, List.flatMap_nil, List.cons_append, List.nil_append,
      List.append_nil, List.all_cons, List.all_nil, hfloorF, hlipC, Bool.and_true,
      Bool.and_false, Bool.not_true, Bool.false_and, Bool.false_or, Bool.or_false,
      Bool.true_and, Bool.not_false, Bool.or_true, Bool.true_or]

/-- Full penetration of the base's front connector opening: above the anvil,
the opening's cross-section is completely clear of final base material. -/
theorem base_usb_opening_clear :
    ∀ p : P3, -(outer_l / 2) ≤ p.x → p.x ≤ -(outer_l / 2) + cut_depth →
      -(usb_cut_w / 2) ≤ p.y → p.y ≤ usb_cut_w / 2 → floor_thick + usb_anvil_h < p.z →
      baseSolid p = false := by
  intro p hx1 hx2 hy1 hy2 hz
  have e4 : floor_thick = 4 := by norm_num [floor_thick]
  have e5 : lip_height = 5/2 := by norm_num [lip_height]
  have e6 : cavity_l = 61/2 := by norm_num [cavity_l, pcb_len]
  have e7 : cavity_w = 463/20 := by norm_num [cavity_w, pcb_wid, screw_post_dia, pcb_xy_tol]
  have e8 : fit_tol = 1/5 := by norm_num [fit_tol]
  have e9 : pcb_wid = 11 := by norm_num [pcb_wid]
  have e10 : pcb_xy_tol = 3/20 := by norm_num [pcb_xy_tol]
  have e11 : recess_wall_t = 6/5 := by norm_num [recess_wall_t]
  have e12 : pcb_len = 57/2 := by norm_num [pcb_len]
  have e13 : soff_offset_y = 5 := by norm_num [soff_offset_y, pcb_wid, soff_size]
  have e14 : soff_size = 1 := by norm_num [soff_size]
  have e15 : soff_back_x = 55/4 := by norm_num [soff_back_x, pcb_len, soff_size]
  have e16 : soff_front_x = -(251/20) := by norm_num [soff_front_x, pcb_len, soff_size]
  have e17 : standoff_h = 5/2 := by norm_num [standoff_h]
  have e18 : slot_w = 7 := by norm_num [slot_w]
  have e19 : clamp_anvil_h = 147/20 := by
    norm_num [clamp_anvil_h, wire_center_h, standoff_h, wire_h_from_pcb, slot_h]
  have e20 : usb_cut_w = 12 := by norm_num [usb_cut_w]
  have e21 : wall_thick = 8/5 := by norm_num [wall_thick]
  have e22 : outer_l = 337/10 := by norm_num [outer_l, cavity_l, pcb_len, wall_thick]
  have e24 : usb_anvil_h = 2 := by norm_num [usb_anvil_h]
  have e25 : recess_h = 19/5 := by norm_num [recess_h]
  have e26 : cut_depth = 13/5 := by norm_num [cut_depth, outer_l, cavity_l, pcb_len, wall_thick]
  by_cases hzc : p.z ≤ floor_thick + usb_anvil_h + lip_height * 3
  · have hcutT : usbCutBaseShape.mem p = true := by
      simp only [usbCutBaseShape, box_mem_iff, Align.lo, Align.hi]
      refine ⟨by linarith, by linarith, by linarith, by linarith, by linarith, by linarith⟩
    simp only [baseSolid, runOps, runFrom, Op.apply, baseOps, lipCornerCuts, cornerXY,
      standoffOps, standoffShapes, screwClearOps, screwCbOps, screwCenters,
      List.flatMap_cons, List.flatMap_nil, List.map_cons, List.map_nil,
      List.cons_append, List.nil_append, List.append_nil, List.all_cons, List.all_nil,
      hcutT, Bool.and_true, Bool.and_false, Bool.not_true, Bool.false_and, Bool.false_or,
      Bool.or_false, Bool.true_and, Bool.not_false, Bool.or_true, Bool.true_or]
  · push_neg at hzc
    have hfloorF : floorShape.mem p = false := mem_false_of_not fun hm => by
      simp only [floorShape, box_mem_iff, Align.lo, Align.hi] at hm
      linarith [hm.2.2.2.2.2]
    have houtF : lipOuterShape.mem p = false := mem_false_of_not fun hm => by
      simp only [lipOuterShape, box_mem_iff, Align.lo, Align.hi] at hm
      linarith [hm.2.2.2.2.2]
    have hrecF : recessOuterShape.mem p = false := mem_false_of_not fun hm => by
      simp only [recessOuterShape, box_mem_iff, Align.lo, Align.hi] at hm
      linarith [hm.2.2.2.2.2]
    have hsoffF1 : (Shape.box soff_back_x (-soff_offset_y) floor_thick soff_size soff_size
        standoff_h .center .center .min).mem p = false := mem_false_of_not fun hm => by
      simp only [box_mem_iff, Align.lo, Align.hi] at hm
      linarith [hm.2.2.2.2.2]
    have hsoffF2 : (Shape.box soff_back_x soff_offset_y floor_thick soff_size soff_size
        standoff_h .center .center .min).mem p = false := mem_false_of_not fun hm => by
      simp only [box_mem_iff, Align.lo, Align.hi] at hm
      linarith [hm.2.2.2.2.2]
    have hsoffF3 : (Shape.box soff_front_x (-soff_offset_y) floor_thick soff_size soff_size
        standoff_h .center .center .min).mem p = false := mem_false_of_not fun hm => by
      simp only [box_mem_iff, Align.lo, Align.hi] at hm
      linarith [hm.2.2.2.2.2]
    have hsoffF4 : (Shape.box soff_front_x soff_offset_y floor_thick soff_size soff_size
        standoff_h .center .center .min).mem p = false := mem_false_of_not fun hm => by
      simp only [box_mem_iff, Align.lo, Align.hi] at hm
      linarith [hm.2.2.2.2.2]
    have hclampF : clampAnvilShape.mem p = false := mem_false_of_not fun hm => by
      simp only [clampAnvilShape, box_mem_iff, Align.lo, Align.hi] at hm
      linarith [hm.2.2.2.2.2]
    have husbAnvF : usbAnvilShape.mem p = false := mem_false_of_not fun hm => by
      simp only [usbAnvilShape, box_mem_iff, Align.lo, Align.hi] at hm
      linarith [hm.2.2.2.2.2]
    have hlipC : (lipOuterShape.mem p && !(lipInnerShape.mem p)) = false := by
      rw [houtF]
      simp
    simp only [baseSolid, runOps, runFrom, Op.apply, baseOps, lipCornerCuts, cornerXY,
      standoffOps, standoffShapes, screwClearOps, screwCbOps, screwCenters,
      List.flatMap_cons, List.flatMap_nil, List.map_cons, List.map_nil,
      List.cons_append, List.nil_append, List.append_nil, List.all_cons, List.all_nil,
      hfloorF, hlipC, hrecF, hsoffF1, hsoffF2, hsoffF3, hsoffF4, hclampF, husbAnvF,
      Bool.and_true, Bool.and_false, Bool.not_true, Bool.false_and, Bool.false_or,
      Bool.or_false, Bool.true_and, Bool.not_false, Bool.or_true, Bool.true_or]

/-- Full penetration of the shell's front connector opening: within the
opening's cross-section the front wall is completely removed. -/
theorem shell_usb_opening_clear :
    ∀ p : P3, -(outer_l / 2) ≤ p.x → p.x ≤ -(cavity_l / 2) →
      -(usb_cut_w / 2) ≤ p.y → p.y ≤ usb_cut_w / 2 → 0 ≤ p.z →
      p.z ≤ usb_z + (usb_h + 3.0) / 2 → shellSolid p = false := by
  intro p hx1 hx2 hy1 hy2 hz1 hz2
  have e6 : cavity_l = 61/2 := by norm_num [cavity_l, pcb_len]
  have e13 : usb_h = 18/5 := by norm_num [usb_h]
  have e14 : standoff_h = 5/2 := by norm_num [standoff_h]
  have e15 : pcb_thick = 8/5 := by norm_num [pcb_thick]
  have e20 : usb_cut_w = 12 := by norm_num [usb_cut_w]
  have e21 : wall_thick = 8/5 := by norm_num [wall_thick]
  have e22 : outer_l = 337/10 := by norm_num [outer_l, cavity_l, pcb_len, wall_thick]
  have e27 : usb_z = 27/5 := by norm_num [usb_z, standoff_h, pcb_thick, usb_h]
  have hcutT : (usbCutShellShape standoff_h pcb_thick usb_h).mem p = true := by
    simp only [usbCutShellShape, box_mem_iff, Align.lo, Align.hi]
    refine ⟨by linarith, by linarith, by linarith, by linarith, by linarith, by linarith⟩
  delta shellSolid
  rw [shellOps_eval]
  simp only [runOps, runFrom, Op.apply, postOps, cornerXY, List.flatMap_cons,
    List.flatMap_nil, List.cons_append, List.nil_append, List.append_nil, List.all_cons,
    List.all_nil, hcutT, Bool.and_true, Bool.and_false, Bool.not_true, Bool.false_and,
    Bool.false_or, Bool.or_false, Bool.true_and, Bool.not_false, Bool.or_true, Bool.true_or]

/-- Full penetration of the shell's back wire-clamp arch: within the arch's
cross-section the back wall is completely removed. -/
theorem shell_arch_clear :
    ∀ p : P3, cavity_l / 2 ≤ p.x → p.x ≤ outer_l / 2 →
      -(slot_w / 2) ≤ p.y → p.y ≤ slot_w / 2 → 0 ≤ p.z → p.z ≤ clamp_arch_top →
      shellSolid p = false := by
  intro p hx1 hx2 hy1 hy2 hz1 hz2
  have e6 : cavity_l = 61/2 := by norm_num [cavity_l, pcb_len]
  have e14 : standoff_h = 5/2 := by norm_num [standoff_h]
  have e18 : slot_w = 7 := by norm_num [slot_w]
  have e21 : wall_thick = 8/5 := by norm_num [wall_thick]
  have e22 : outer_l = 337/10 := by norm_num [outer_l, cavity_l, pcb_len, wall_thick]
  have e28 : clamp_arch_top = 173/20 := by
    norm_num [clamp_arch_top, wire_center_h, standoff_h, wire_h_from_pcb, slot_h]
  have e29 : wire_h_from_pcb = 11/2 := by norm_num [wire_h_from_pcb]
  have e30 : slot_h = 13/10 := by norm_num [slot_h]
  have harchT : (clampArchShape standoff_h).mem p = true := by
    simp only [clampArchShape, box_mem_iff, Align.lo, Align.hi]
    refine ⟨by linarith, by linarith, by linarith, by linarith, by linarith, by linarith⟩
  delta shellSolid
  rw [shellOps_eval]
  simp only [runOps, runFrom, Op.apply, postOps, cornerXY, List.flatMap_cons,
    List.flatMap_nil, List.cons_append, List.nil_append, List.append_nil, List.all_cons,
    List.all_nil, harchT, Bool.and_true, Bool.and_false, Bool.not_true, Bool.false_and,
    Bool.false_or, Bool.or_false, Bool.true_and, Bool.not_false, Bool.or_true, Bool.true_or]

end DecoyCase

namespace DecoyCase

set_option maxHeartbeats 3200000 in
/-- Every point of every standoff pillar is outside the connector-opening cut
and is still present in the finished base solid. -/
theorem standoff_in_base :
    ∀ s ∈ standoffShapes, ∀ p : P3, s.mem p = true →
      usbCutBaseShape.mem p = false ∧ baseSolid p = true := by
  intro s hs p hmem
  have e1 : post_offset_x = 49/4 := by norm_num [post_offset_x, cavity_l, pcb_len, screw_post_dia]
  have e2 : post_offset_y = 343/40 := by
    norm_num [post_offset_y, cavity_w, pcb_wid, screw_post_dia, pcb_xy_tol]
  have e4 : floor_thick = 4 := by norm_num [floor_thick]
  have e12 : pcb_len = 57/2 := by norm_num [pcb_len]
  have e13 : soff_offset_y = 5 := by norm_num [soff_offset_y, pcb_wid, soff_size]
  have e14 : soff_size = 1 := by norm_num [soff_size]
  have e15 : soff_back_x = 55/4 := by norm_num [soff_back_x, pcb_len, soff_size]
  have e16 : soff_front_x = -(251/20) := by norm_num [soff_front_x, pcb_len, soff_size]
  have e17 : standoff_h = 5/2 := by norm_num [standoff_h]
  have e20 : usb_cut_w = 12 := by norm_num [usb_cut_w]
  have e22 : outer_l = 337/10 := by norm_num [outer_l, cavity_l, pcb_len, wall_thick]
  have e24 : usb_anvil_h = 2 := by norm_num [usb_anvil_h]
  have e26 : cut_depth = 13/5 := by norm_num [cut_depth, outer_l, cavity_l, pcb_len, wall_thick]
  have er2 : (screw_clear_dia / 2) ^ 2 = (64/25 : ℚ) := by norm_num [screw_clear_dia]
  have ehr2 : (head_dia / 2) ^ 2 = (9 : ℚ) := by norm_num [head_dia]
  fin_cases hs <;>
  · have hm := hmem
    simp only [box_mem_iff, Align.lo, Align.hi] at hm
    obtain ⟨m1, m2, m3, m4, m5, m6⟩ := hm
    have ha1 : (123/40 : ℚ) ≤ p.y + post_offset_y := by linarith
    have ha2 : p.y - post_offset_y ≤ -(123/40 : ℚ) := by linarith
    have hyq2 : (9:ℚ) < (p.y + post_offset_y) ^ 2 := by nlinarith [ha1]
    have hyq1 : (9:ℚ) < (p.y - post_offset_y) ^ 2 := by nlinarith [ha2]
    have hcl1 : (clearShape (-post_offset_x, -post_offset_y)).mem p = false :=
      mem_false_of_not fun hm2 => by
        simp only [clearShape, cyl_mem_iff, Align.lo, Align.hi] at hm2
        linarith [hm2.1, sq_nonneg (p.x + post_offset_x), hyq2, er2]
    have hcl2 : (clearShape (-post_offset_x, post_offset_y)).mem p = false :=
      mem_false_of_not fun hm2 => by
        simp only [clearShape, cyl_mem_iff, Align.lo, Align.hi] at hm2
        linarith [hm2.1, sq_nonneg (p.x + post_offset_x), hyq1, er2]
    have hcl3 : (clearShape (post_offset_x, -post_offset_y)).mem p = false :=
      mem_false_of_not fun hm2 => by
        simp only [clearShape, cyl_mem_iff, Align.lo, Align.hi] at hm2
        linarith [hm2.1, sq_nonneg (p.x - post_offset_x), hyq2, er2]
    have hcl4 : (clearShape (post_offset_x, post_offset_y)).mem p = false :=
      mem_false_of_not fun hm2 => by
        simp only [clearShape, cyl_mem_iff, Align.lo, Align.hi] at hm2
        linarith [hm2.1, sq_nonneg (p.x - post_offset_x), hyq1, er2]
    have hcb1 : (cbShape (-post_offset_x, -post_offset_y)).mem p = false :=
      mem_false_of_not fun hm2 => by
        simp only [cbShape, cyl_mem_iff, Align.lo, Align.hi] at hm2
        linarith [hm2.1, sq_nonneg (p.x + post_offset_x), hyq2, ehr2]
    have hcb2 : (cbShape (-post_offset_x, post_offset_y)).mem p = false :=
      mem_false_of_not fun hm2 => by
        simp only [cbShape, cyl_mem_iff, Align.lo, Align.hi] at hm2
        linarith [hm2.1, sq_nonneg (p.x + post_offset_x), hyq1, ehr2]
    have hcb3 : (cbShape (post_offset_x, -post_offset_y)).mem p = false :=
      mem_false_of_not fun hm2 => by
        simp only [cbShape, cyl_mem_iff, Align.lo, Align.hi] at hm2
        linarith [hm2.1, sq_nonneg (p.x - post_offset_x), hyq2, ehr2]
    have hcb4 : (cbShape (post_offset_x, post_offset_y)).mem p = false :=
      mem_false_of_not fun hm2 => by
        simp only [cbShape, cyl_mem_iff, Align.lo, Align.hi] at hm2
        linarith [hm2.1, sq_nonneg (p.x - post_offset_x), hyq1, ehr2]
    have hcutF : usbCutBaseShape.mem p = false := mem_false_of_not fun hm2 => by
      simp only [usbCutBaseShape, box_mem_iff, Align.lo, Align.hi] at hm2
      linarith [hm2.2.1]
    refine ⟨hcutF, ?_⟩
    simp only [baseSolid, runOps, runFrom, Op.apply, baseOps, lipCornerCuts, cornerXY,
      standoffOps, standoffShapes, screwClearOps, screwCbOps, screwCenters,
      List.flatMap_cons, List.flatMap_nil, List.map_cons, List.map_nil,
      List.cons_append, List.nil_append, List.append_nil, List.all_cons, List.all_nil,
      hmem, hcl1, hcl2, hcl3, hcl4, hcb1, hcb2, hcb3, hcb4, hcutF, Bool.and_true,
      Bool.and_false, Bool.not_true, Bool.false_and, Bool.false_or, Bool.or_false,
      Bool.true_and, Bool.not_false, Bool.or_true, Bool.true_or]

/-- C4 counterexample: not every subtractive operation fully penetrates the
material it removes.  The counterbore at `(post_offset_x, post_offset_y)` is
cut from the bottom only to depth `cb_depth = 2`, and the finished base still
has material at `(14.25, 8.575, 3)` — inside the counterbore's footprint but
above its top — i.e. residual material along that cut's axis (by design: it
is a blind recess). -/
theorem c4_blind_cut_counterexample :
    Op.sub (cbShape (post_offset_x, post_offset_y)) ∈ baseOps ∧
    ((57/4 : ℚ) - post_offset_x) ^ 2 + ((343/40 : ℚ) - post_offset_y) ^ 2 ≤ (head_dia / 2) ^ 2 ∧
    Align.hi .min 0 cb_depth = 2 ∧ (2:ℚ) < 3 ∧
    baseSolid ⟨57/4, 343/40, 3⟩ = true := by
  refine ⟨?_, ?_, ?_, by norm_num, ?_⟩
  · simp [baseOps, screwCbOps, screwCenters]
  · norm_num [post_offset_x, post_offset_y, head_dia, cavity_l, cavity_w, pcb_len,
      pcb_wid, screw_post_dia, pcb_xy_tol]
  · norm_num [Align.hi, cb_depth]
  · norm_num [baseSolid, runOps, runFrom, Op.apply, baseOps, lipCornerCuts, cornerXY, sgn,
      standoffOps, standoffShapes, screwClearOps, screwCbOps, screwCenters, Shape.mem,
      Align.lo, Align.hi, floorShape, lipOuterShape, lipInnerShape, slotShape,
      recessOuterShape, recessInnerShape, recessPostNegs, clearShape, cbShape,
      clampAnvilShape, usbAnvilShape, usbCutBaseShape, pcb_len, pcb_wid, pcb_thick,
      usb_len_metal, usb_w, usb_h, term_block_len, term_block_h, wall_thick, floor_thick,
      fit_tol, standoff_h, recess_h, usb_anvil_h, usb_cut_w, internal_h, slot_w, slot_h,
      wire_h_from_pcb, wire_center_h, clamp_anvil_h, clamp_arch_top, screw_post_dia,
      screw_pilot_dia, screw_clear_dia, head_dia, cb_depth, pcb_xy_tol, cavity_l, cavity_w,
      outer_l, outer_w, post_offset_x, post_offset_y, post_r, lip_height, recess_wall_t,
      soff_size, soff_offset_y, soff_back_x, soff_front_x, cut_depth]

/-- C4 (amended): the deliberately oversized through-cuts fully penetrate,
leaving no residual material: (1) the four screw clearance holes (depth
`floor_thick*3`) leave their whole columns empty in the final base; (2) the
rim slot (width `wall_thick*4`, height `lip_height*2`) leaves the slot band
on the back half empty of everything above the floor at cut time; (3) the
base connector opening clears its cross-section above the anvil; (4)/(5) the
shell's two wall cuts (depth `wall_thick*4`) clear their wall cross-sections.
Blind recesses (counterbores, pilot holes) intentionally stop inside the
material, so the universal claim holds only for the through-cuts. -/
theorem c4_through_cuts :
    (∀ c ∈ screwCenters, ∀ p : P3,
      (p.x - c.1) ^ 2 + (p.y - c.2) ^ 2 ≤ (screw_clear_dia / 2) ^ 2 →
      baseSolid p = false) ∧
    (baseOps = baseOpsThroughSlot ++ baseOpsAfterSlot ∧
      ∀ p : P3, 0 ≤ p.x → -(slot_w / 2) ≤ p.y → p.y ≤ slot_w / 2 → floor_thick < p.z →
        runOps baseOpsThroughSlot p = false) ∧
    (∀ p : P3, -(outer_l / 2) ≤ p.x → p.x ≤ -(outer_l / 2) + cut_depth →
      -(usb_cut_w / 2) ≤ p.y → p.y ≤ usb_cut_w / 2 → floor_thick + usb_anvil_h < p.z →
      baseSolid p = false) ∧
    (∀ p : P3, -(outer_l / 2) ≤ p.x → p.x ≤ -(cavity_l / 2) →
      -(usb_cut_w / 2) ≤ p.y → p.y ≤ usb_cut_w / 2 → 0 ≤ p.z →
      p.z ≤ usb_z + (usb_h + 3.0) / 2 → shellSolid p = false) ∧
    (∀ p : P3, cavity_l / 2 ≤ p.x → p.x ≤ outer_l / 2 →
      -(slot_w / 2) ≤ p.y → p.y ≤ slot_w / 2 → 0 ≤ p.z → p.z ≤ clamp_arch_top →
      shellSolid p = false) :=
  ⟨base_clear_column, ⟨rfl, base_slot_penetrates⟩, base_usb_opening_clear,
   shell_usb_opening_clear, shell_arch_clear⟩

/-- C4 witness: each through-cut fact of `c4_through_cuts` applied at a
concrete point of the respective opening. -/
theorem c4_through_cuts_witness :
    baseSolid ⟨-(49/4), -(343/40), 2⟩ = false ∧
    runOps baseOpsThroughSlot ⟨15, 0, 5⟩ = false ∧
    baseSolid ⟨-16, 0, 7⟩ = false ∧
    shellSolid ⟨-16, 0, 5⟩ = false ∧
    shellSolid ⟨16, 0, 5⟩ = false :=
  ⟨c4_through_cuts.1 (-post_offset_x, -post_offset_y) (by simp [screwCenters])
      ⟨-(49/4), -(343/40), 2⟩
      (by norm_num [post_offset_x, post_offset_y, screw_clear_dia, cavity_l, cavity_w,
        pcb_len, pcb_wid, screw_post_dia, pcb_xy_tol]),
   c4_through_cuts.2.1.2 ⟨15, 0, 5⟩ (by norm_num) (by norm_num [slot_w])
      (by norm_num [slot_w]) (by norm_num [floor_thick]),
   c4_through_cuts.2.2.1 ⟨-16, 0, 7⟩
      (by norm_num [outer_l, cavity_l, pcb_len, wall_thick])
      (by norm_num [outer_l, cavity_l, pcb_len, wall_thick, cut_depth])
      (by norm_num [usb_cut_w]) (by norm_num [usb_cut_w])
      (by norm_num [floor_thick, usb_anvil_h]),
   c4_through_cuts.2.2.2.1 ⟨-16, 0, 5⟩
      (by norm_num [outer_l, cavity_l, pcb_len, wall_thick])
      (by norm_num [cavity_l, pcb_len])
      (by norm_num [usb_cut_w]) (by norm_num [usb_cut_w]) (by norm_num)
      (by norm_num [usb_z, standoff_h, pcb_thick, usb_h]),
   c4_through_cuts.2.2.2.2 ⟨16, 0, 5⟩
      (by norm_num [cavity_l, pcb_len])
      (by norm_num [outer_l, cavity_l, pcb_len, wall_thick])
      (by norm_num [slot_w]) (by norm_num [slot_w]) (by norm_num)
      (by norm_num [clamp_arch_top, wire_center_h, standoff_h, wire_h_from_pcb, slot_h])⟩

/-- C8: the four standoff pillars are disjoint from the connector-opening
cut: the front pair is inset 1.2 mm behind the cut (which reaches
`cut_depth = outer_l/2 - pcb_len/2` in from the front wall), and no standoff
volume is removed by that subtraction — indeed every standoff point survives
in the finished base. -/
theorem c8_standoffs_clear_usb_cut :
    soff_front_x = -(pcb_len / 2) + soff_size / 2 + 1.2 ∧
    cut_depth = outer_l / 2 - pcb_len / 2 ∧
    (∀ s ∈ standoffShapes, ∀ p : P3, s.mem p = true →
      usbCutBaseShape.mem p = false ∧ baseSolid p = true) :=
  ⟨rfl, rfl, standoff_in_base⟩

/-- C8 witness: `c8_standoffs_clear_usb_cut` applied to a point of the front
standoff nearest the connector opening. -/
theorem c8_standoffs_clear_usb_cut_witness :
    usbCutBaseShape.mem ⟨-(251/20), 5, 5⟩ = false ∧
    baseSolid ⟨-(251/20), 5, 5⟩ = true :=
  c8_standoffs_clear_usb_cut.2.2
    (Shape.box soff_front_x soff_offset_y floor_thick soff_size soff_size standoff_h
      .center .center .min)
    (by simp [standoffShapes]) ⟨-(251/20), 5, 5⟩
    (by norm_num [Shape.mem, Align.lo, Align.hi, soff_front_x, soff_offset_y, soff_size,
      floor_thick, standoff_h, pcb_len, pcb_wid])

end DecoyCase
